import Mathlib

/-!
Verification of the data normalization and aggregation pipeline of the
education-usage dashboard (`app.py`).

The source is a single-page pandas/streamlit program.  We shallowly embed the
data pipeline: a loaded spreadsheet row becomes a `Row`, the loaded frame a
`List Row`, and each pandas operation (boolean-mask filtering, `groupby(...).sum()`
with sorted keys, `sort_values`, column arithmetic) becomes the corresponding
pure list operation.  Strings are Lean `String`s (Unicode code points, matching
Python semantics); dates are year/month/day triples of naturals (pandas
timestamps in the valid range); numeric cells are `Int`.

Column names are kept verbatim from the source: 日期 (date), 区名称 (district),
学校名称 (school), 教师姓名 (teacher), 板块A/板块B (segment_a/segment_b),
学年 (academic_year), 月份 (month_bucket).
-/

/-- A calendar date as carried by the 日期 column after `pd.to_datetime`. -/
structure Date where
  year : Nat
  month : Nat
  day : Nat
deriving DecidableEq

/-- Timestamp comparison used by the date-range mask
`(df['日期'] >= start) & (df['日期'] <= end)`: lexicographic on (year, month, day). -/
def dateLE (a b : Date) : Bool :=
  decide (a.year < b.year) ||
    (a.year == b.year &&
      (decide (a.month < b.month) || (a.month == b.month && decide (a.day ≤ b.day))))

/-- The 学年 (academic year) column, from `load_data`:
`f"{x.year}-{x.year+1}" if x.month >= 9 else f"{x.year-1}-{x.year}"`. -/
def academicYear (d : Date) : String :=
  if 9 ≤ d.month then toString d.year ++ "-" ++ toString (d.year + 1)
  else toString (d.year - 1) ++ "-" ++ toString d.year

/-- The starting calendar year of a date's academic year (the integer that the
source later recovers from the string via `str.split('-').str[0].astype(int)`). -/
def ayStart (d : Date) : Nat :=
  if 9 ≤ d.month then d.year else d.year - 1

/-- Two-digit zero-padded month, as produced inside `dt.to_period('M').astype(str)`. -/
def pad2 (m : Nat) : String :=
  if m < 10 then "0" ++ toString m else toString m

/-- The 月份 (month bucket) column, from `load_data`:
`df['日期'].dt.to_period('M').astype(str)`, i.e. the "YYYY-MM" string. -/
def monthBucket (d : Date) : String :=
  toString d.year ++ "-" ++ pad2 d.month

/-- Numeric value of a decimal digit character (inverse of `Nat.digitChar`
on digits). -/
def charDigitVal (c : Char) : Nat := c.toNat - 48

/-- Read a list of decimal digit characters back as a number (most significant
first) — the meaning `int(...)` / datetime parsing assigns to a digit string. -/
def undigits (l : List Char) : Nat :=
  l.foldl (fun acc c => acc * 10 + charDigitVal c) 0

/-- The integer first component of an academic-year string, from the overview
trend: `trend_data['学年'].str.split('-').str[0].astype(int)`. -/
def ayStartOf (s : String) : Nat :=
  undigits (s.data.takeWhile (fun c => c != '-'))

/-- The chronological key recovered from a "YYYY-MM" month string, from
`pd.to_datetime(月份 + '-01')` (the sort key `月份_dt`): the (year, month) pair. -/
def monthDtOf (s : String) : Nat × Nat :=
  (undigits (s.data.takeWhile (fun c => c != '-')),
   undigits (((s.data.dropWhile (fun c => c != '-')).drop 1).takeWhile (fun c => c != '-')))

/-- One loaded spreadsheet row.  The recommended columns 区名称/学校名称/教师姓名/
板块A/板块B are modelled as present (the dataset the source is written for);
further sub-item columns are carried as a cell list indexed by column name. -/
structure Row where
  date : Date
  district : String
  school : String
  teacher : String
  segA : Int
  segB : Int
  items : List (String × Int)
deriving DecidableEq

/-- Value of a sub-item column in a row (a cell of the frame). -/
def itemVal (r : Row) (c : String) : Int :=
  ((r.items.lookup c).getD 0)

/-- Value of the user-selected metric column (`target_col` in tab 3, drawn from
`['板块A', '板块B'] + ALL_ITEMS`). -/
def colVal (c : String) (r : Row) : Int :=
  if c = "板块A" then r.segA else if c = "板块B" then r.segB else itemVal r c

/-- The column information the discovery step looks at: all column names (after
whitespace stripping) and the numeric-dtype ones (`select_dtypes(include='number')`). -/
structure Schema where
  cols : List String
  numericCols : List String
deriving DecidableEq

/-- The reserved names of `known` (line 39 of the source): date, derived fields,
district, school, teacher and the two segment columns. -/
def knownCols : List String :=
  ["日期", "学年", "月份", "区名称", "学校名称", "教师姓名", "板块A", "板块B"]

/-- Python's `str.startswith`. -/
def strStartsWith (s pre : String) : Bool :=
  pre.data.isPrefixOf s.data

/-- `ALL_ITEMS` discovery (lines 40–45): columns starting with 板块A or 板块B if
any exist, otherwise every numeric column not in `known`. -/
def allItems (sch : Schema) : List String :=
  let prefCols := sch.cols.filter (fun c => strStartsWith c "板块A" || strStartsWith c "板块B")
  if prefCols.isEmpty then sch.numericCols.filter (fun c => !knownCols.contains c)
  else prefCols

/-- Line 88: `filtered_df = df[(df['日期'] >= start_date) & (df['日期'] <= end_date)]`. -/
def dateStep (s e : Date) (l : List Row) : List Row :=
  l.filter (fun r => dateLE s r.date && dateLE r.date e)

/-- Lines 89–90: `if selected_district != '全部区域': filtered_df = filtered_df[filtered_df['区名称'] == selected_district]`. -/
def districtStep (dist : String) (l : List Row) : List Row :=
  if dist ≠ "全部区域" then l.filter (fun r => r.district == dist) else l

/-- Lines 91–92: `if selected_schools: filtered_df = filtered_df[filtered_df['学校名称'].isin(selected_schools)]`
(an empty selection is falsy, so it imposes no restriction). -/
def schoolStep (schools : List String) (l : List Row) : List Row :=
  if schools.isEmpty then l else l.filter (fun r => schools.contains r.school)

/-- The globally filtered view `filtered_df` (lines 88–92): date range, then
optional district, then optional school set. -/
def filteredDf (df : List Row) (s e : Date) (dist : String) (schools : List String) : List Row :=
  schoolStep schools (districtStep dist (dateStep s e df))

/-- Sum of a numeric column over the rows kept by a boolean mask
(`df[mask][col].sum()`). -/
def sumBy (rows : List Row) (p : Row → Bool) (v : Row → Int) : Int :=
  ((rows.filter p).map v).sum

/-- Chronological order on the (year, month) keys recovered from month strings. -/
def chronLE (a b : Nat × Nat) : Prop :=
  a.1 < b.1 ∨ (a.1 = b.1 ∧ a.2 ≤ b.2)

instance : DecidableRel chronLE := fun a b => by
  unfold chronLE; exact inferInstance

/-- Lexicographic string order on (月份, name) key pairs — the ascending key
order `pandas.groupby(sort=True)` emits for a two-column key. -/
def pairLE (a b : String × String) : Prop :=
  a.1 < b.1 ∨ (a.1 = b.1 ∧ a.2 ≤ b.2)

instance : DecidableRel pairLE := fun a b => by
  unfold pairLE; exact inferInstance

/-- Order of `sort_values('月份_dt')` on single-key trend entries: by the
chronological key parsed back from the month string. -/
def trendEntryLE (a b : String × Int × Int) : Prop :=
  chronLE (monthDtOf a.1) (monthDtOf b.1)

instance : DecidableRel trendEntryLE := fun a b => by
  unfold trendEntryLE; exact inferInstance

instance : IsTotal (String × Int × Int) trendEntryLE := by
  constructor; intro a b; unfold trendEntryLE chronLE; omega

instance : IsTrans (String × Int × Int) trendEntryLE := by
  constructor; intro a b c; unfold trendEntryLE chronLE; omega

/-- Order of `sort_values('学年_start')` on academic-year trend entries: by the
integer first component of the academic-year string. -/
def ayEntryLE (a b : String × Int × Int) : Prop :=
  ayStartOf a.1 ≤ ayStartOf b.1

instance : DecidableRel ayEntryLE := fun a b => by
  unfold ayEntryLE; exact inferInstance

instance : IsTotal (String × Int × Int) ayEntryLE := by
  constructor; intro a b; unfold ayEntryLE; omega

instance : IsTrans (String × Int × Int) ayEntryLE := by
  constructor; intro a b c; unfold ayEntryLE; omega

/-- Order of `sort_values('月份_dt')` on (month, entity) aggregation entries. -/
def monthEntryLE (a b : (String × String) × Int) : Prop :=
  chronLE (monthDtOf a.1.1) (monthDtOf b.1.1)

instance : DecidableRel monthEntryLE := fun a b => by
  unfold monthEntryLE; exact inferInstance

/-- `groupby(group_col)[['板块A', '板块B']].sum().reset_index()` for a single
string key: the distinct keys in ascending order (pandas sorts group keys),
each with the per-group column sums. -/
def trendGroup (keyf : Row → String) (rows : List Row) : List (String × Int × Int) :=
  (List.insertionSort (α := String) (· ≤ ·) ((rows.map keyf).dedup)).map
    (fun k => (k, sumBy rows (fun r => keyf r == k) (fun r => r.segA),
                  sumBy rows (fun r => keyf r == k) (fun r => r.segB)))

/-- `groupby(['月份', name])[col].sum().reset_index()`: distinct key pairs in
ascending lexicographic order, each with the group's column sum. -/
def groupPairSum (keyf : Row → String × String) (v : Row → Int) (rows : List Row) :
    List ((String × String) × Int) :=
  (List.insertionSort pairLE ((rows.map keyf).dedup)).map
    (fun k => (k, sumBy rows (fun r => keyf r == k) v))

/-- The (month, entity) aggregation shared by tabs 2–4: group by
(月份, entity name), sum the metric, then sort by the month's real date
(`月份_dt = pd.to_datetime(月份 + '-01')`, `sort_values('月份_dt')`). -/
def aggMonthBy (name : Row → String) (v : Row → Int) (rows : List Row) :
    List ((String × String) × Int) :=
  List.insertionSort monthEntryLE
    (groupPairSum (fun r => (monthBucket r.date, name r)) v rows)

/-- Tab 1 trend, monthly branch (lines 111–121): group `filtered_df` by 月份,
sum 板块A and 板块B, sort by the real date of each month. -/
def trendDataMonth (rows : List Row) : List (String × Int × Int) :=
  List.insertionSort trendEntryLE (trendGroup (fun r => monthBucket r.date) rows)

/-- Tab 1 trend, academic-year branch (lines 111, 124–126): group by 学年, sum
板块A and 板块B, sort by the integer start year of the academic-year string. -/
def trendDataAY (rows : List Row) : List (String × Int × Int) :=
  List.insertionSort ayEntryLE (trendGroup (fun r => academicYear r.date) rows)

/-- Tab 2, intra-district comparison (lines 151–172).  Returns the chart data
(or `none` where the source draws nothing) and whether the cap warning fired.
An empty selection is falsy, so nothing is computed; more than 10 schools warns
and keeps the first 10; the metric is 板块A (present in the modelled schema). -/
def tab2Result (filtered : List Row) (localSchools : List String) :
    Option (List ((String × String) × Int)) × Bool :=
  if localSchools.isEmpty then (none, false)
  else
    let warn := decide (10 < localSchools.length)
    let ls := if 10 < localSchools.length then localSchools.take 10 else localSchools
    let compDf := filtered.filter (fun r => ls.contains r.school)
    if compDf.isEmpty then (none, warn)
    else (some (aggMonthBy (fun r => r.school) (fun r => r.segA) compDf), warn)

/-- Tab 3, cross-entity comparison (lines 180–195).  The selection is capped at
20; the rows are `filtered_df[filtered_df['学校名称'].isin(comp_schools)]`,
i.e. taken from the globally filtered view; the summed metric is the
user-selected `target_col`. -/
def tab3Result (df : List Row) (s e : Date) (dist : String) (gs : List String)
    (comp : List String) (target : String) :
    Option (List ((String × String) × Int)) × Bool :=
  if comp.isEmpty then (none, false)
  else
    let warn := decide (20 < comp.length)
    let cs := if 20 < comp.length then comp.take 20 else comp
    let compDf := (filteredDf df s e dist gs).filter (fun r => cs.contains r.school)
    if compDf.isEmpty then (none, warn)
    else (some (aggMonthBy (fun r => r.school) (colVal target) compDf), warn)

/-- Tab 4, single-school teacher comparison (lines 206–225): restrict
`filtered_df` to the target school; an empty school view or an empty teacher
selection draws nothing; more than 10 teachers warns and keeps the first 10;
group the kept teachers' rows by (月份, 教师姓名) and sum 板块A. -/
def tab4Result (filtered : List Row) (target : String) (teachers : List String) :
    Option (List ((String × String) × Int)) × Bool :=
  let sd := filtered.filter (fun r => r.school == target)
  if sd.isEmpty then (none, false)
  else if teachers.isEmpty then (none, false)
  else
    let warn := decide (10 < teachers.length)
    let ts := if 10 < teachers.length then teachers.take 10 else teachers
    let tdf := sd.filter (fun r => ts.contains r.teacher)
    (some (aggMonthBy (fun r => r.teacher) (fun r => r.segA) tdf), warn)

/-- Total of one sub-item column over a school's filtered rows
(one entry of `school_detail[ALL_ITEMS].sum(numeric_only=True)`). -/
def itemTotal (schoolDetail : List Row) (i : String) : Int :=
  (schoolDetail.map (fun r => itemVal r i)).sum

/-- Tab 4 sub-item breakdown (lines 236–238): sum every item column over the
school's filtered rows and keep the items with strictly positive totals
(`item_sum = item_sum[item_sum['使用量'] > 0]`). -/
def itemSumTable (schoolDetail : List Row) (items : List String) : List (String × Int) :=
  (items.map (fun i => (i, itemTotal schoolDetail i))).filter (fun p => decide (0 < p.2))

/-- The process-wide cached state: the dataset loaded once by `load_data`
(`@st.cache_data`) and only read afterwards. -/
structure Dashboard where
  df : List Row
deriving DecidableEq

/-- One full render pass: everything every tab computes from the cached
dataset for one combination of widget inputs, returned together with the
dataset state after the pass.  The source only reads `df` (masks, `groupby`,
`copy`) — every column assignment in it targets a freshly built frame
(`trend_data`, `school_trend`, `comp_agg`, `teacher_df`) — so the embedding
threads the state through unchanged. -/
def runDashboard (st : Dashboard) (s e : Date) (dist : String)
    (gs sel2 comp : List String) (target tgtSchool : String)
    (teachers items : List String) :
    (List (String × Int × Int) × List (String × Int × Int)
      × (Option (List ((String × String) × Int)) × Bool)
      × (Option (List ((String × String) × Int)) × Bool)
      × (Option (List ((String × String) × Int)) × Bool)
      × List (String × Int)) × Dashboard :=
  let f := filteredDf st.df s e dist gs
  ((trendDataMonth f, trendDataAY f, tab2Result f sel2,
    tab3Result st.df s e dist gs comp target, tab4Result f tgtSchool teachers,
    itemSumTable (f.filter (fun r => r.school == tgtSchool)) items), st)

/-- Example rows: one row in district A区 / school S1, one in B区 / S2, both in
March 2024. -/
def exRow1 : Row :=
  { date := ⟨2024, 3, 5⟩, district := "A区", school := "S1", teacher := "T1",
    segA := 5, segB := 0, items := [] }

/-- Second example row, in district B区. -/
def exRow2 : Row :=
  { date := ⟨2024, 3, 7⟩, district := "B区", school := "S2", teacher := "T2",
    segA := 7, segB := 1, items := [] }

/-- Example loaded dataset with two districts. -/
def exDf : List Row := [exRow1, exRow2]

/-- Example date-range endpoints covering 2024. -/
def exS : Date := ⟨2024, 1, 1⟩

/-- Example range end. -/
def exE : Date := ⟨2024, 12, 31⟩

/-- The recommended schema, with the two segment columns numeric — the shape
the source's own `REQUIRED_COLS` check expects. -/
def exSchema : Schema :=
  { cols := ["日期", "区名称", "学校名称", "教师姓名", "板块A", "板块B"],
    numericCols := ["板块A", "板块B"] }

/-- One-row school history with item sums x ↦ 0, y ↦ 3, z ↦ -1 — the spec's
item-breakdown scenario. -/
def c8Rows : List Row :=
  [{ date := ⟨2024, 3, 5⟩, district := "A区", school := "S1", teacher := "T1",
     segA := 0, segB := 0, items := [("x", 0), ("y", 3), ("z", -1)] }]

/-- The example dataset with its two rows swapped (a permutation of `exDf`). -/
def exDfRev : List Row := [exRow2, exRow1]

/-- A schema without segment-prefixed columns, so that discovery falls back to
the numeric columns outside the reserved set. -/
def exSchemaFallback : Schema :=
  { cols := ["日期", "区名称", "学校名称", "教师姓名", "阅读量"],
    numericCols := ["阅读量"] }

/-!
Lemmas about decimal rendering.

`Nat.repr` (what Python's f-strings and `astype(str)` produce for the year and
month components) is inverted by `undigits`, which is what `int(...)` and
datetime parsing do to the digit substrings.  These lemmas justify reading the
first component of "Y1-Y2" strings and the (year, month) of "YYYY-MM" strings
back off the rendered keys.
-/

theorem toDigitsCore_append (b : Nat) :
    ∀ (fuel n : Nat) (ds : List Char),
      Nat.toDigitsCore b fuel n ds = Nat.toDigitsCore b fuel n [] ++ ds := by
  intro fuel
  induction fuel with
  | zero => intro n ds; rfl
  | succ f ih =>
    intro n ds
    simp only [Nat.toDigitsCore]
    by_cases h : n / b = 0
    · simp [h]
    · rw [if_neg h, if_neg h, ih (n / b) (Nat.digitChar (n % b) :: ds),
        ih (n / b) [Nat.digitChar (n % b)], List.append_assoc, List.singleton_append]

theorem charDigitVal_digitChar (k : Nat) (hk : k < 10) :
    charDigitVal (Nat.digitChar k) = k := by
  interval_cases k <;> rfl

theorem undigits_toDigitsCore :
    ∀ (f n : Nat), n < 10 ^ f → 1 ≤ f → undigits (Nat.toDigitsCore 10 f n []) = n := by
  intro f
  induction f with
  | zero => intro n h h1; omega
  | succ f ih =>
    intro n hlt _
    simp only [Nat.toDigitsCore]
    by_cases h : n / 10 = 0
    · rw [if_pos h]
      have hn : n < 10 := by omega
      show undigits [Nat.digitChar (n % 10)] = n
      unfold undigits
      simp only [List.foldl_cons, List.foldl_nil, Nat.zero_mul, Nat.zero_add]
      rw [charDigitVal_digitChar (n % 10) (by omega)]
      omega
    · rw [if_neg h, toDigitsCore_append]
      have hf : 1 ≤ f := by
        rcases Nat.eq_zero_or_pos f with h0 | h1
        · subst h0; norm_num at hlt; omega
        · exact h1
      have hdiv : n / 10 < 10 ^ f := by
        have hpow : 10 ^ (f + 1) = 10 ^ f * 10 := by ring
        omega
      have hih := ih (n / 10) hdiv hf
      unfold undigits at hih ⊢
      rw [List.foldl_append, hih]
      simp only [List.foldl_cons, List.foldl_nil]
      rw [charDigitVal_digitChar (n % 10) (by omega)]
      omega

theorem nat_lt_ten_pow_succ (n : Nat) : n < 10 ^ (n + 1) := by
  have h1 : n < 10 ^ n := Nat.lt_pow_self (by norm_num) n
  have h2 : 10 ^ n ≤ 10 ^ (n + 1) := Nat.pow_le_pow_right (by norm_num) (by omega)
  omega

theorem undigits_toString (n : Nat) : undigits (toString n).data = n := by
  show undigits (Nat.toDigitsCore 10 (n + 1) n []) = n
  exact undigits_toDigitsCore (n + 1) n (nat_lt_ten_pow_succ n) (by omega)

theorem mem_toDigitsCore10 :
    ∀ (f n : Nat) (ds : List Char) (c : Char), c ∈ Nat.toDigitsCore 10 f n ds →
      c ∈ ds ∨ ∃ k, k < 10 ∧ c = Nat.digitChar k := by
  intro f
  induction f with
  | zero => intro n ds c h; exact Or.inl h
  | succ f ih =>
    intro n ds c h
    simp only [Nat.toDigitsCore] at h
    by_cases hd : n / 10 = 0
    · rw [if_pos hd] at h
      rcases List.mem_cons.mp h with h1 | h2
      · exact Or.inr ⟨n % 10, by omega, h1⟩
      · exact Or.inl h2
    · rw [if_neg hd] at h
      rcases ih (n / 10) _ c h with h1 | h2
      · rcases List.mem_cons.mp h1 with h3 | h4
        · exact Or.inr ⟨n % 10, by omega, h3⟩
        · exact Or.inl h4
      · exact Or.inr h2

theorem digitChar_ne_dash (k : Nat) (hk : k < 10) : Nat.digitChar k ≠ '-' := by
  interval_cases k <;> decide

theorem dash_not_mem_toString (n : Nat) (c : Char) (hc : c ∈ (toString n).data) :
    c ≠ '-' := by
  have hm : c ∈ Nat.toDigitsCore 10 (n + 1) n [] := hc
  rcases mem_toDigitsCore10 (n + 1) n [] c hm with h | ⟨k, hk, he⟩
  · simp at h
  · rw [he]; exact digitChar_ne_dash k hk

theorem data_append (a b : String) : (a ++ b).data = a.data ++ b.data := rfl

theorem append_dash_inj :
    ∀ (A C B D : List Char),
      (∀ a ∈ A, a ≠ '-') → (∀ c ∈ C, c ≠ '-') →
      A ++ '-' :: B = C ++ '-' :: D → A = C ∧ B = D := by
  intro A
  induction A with
  | nil =>
    intro C B D _ hC h
    cases C with
    | nil => simp_all
    | cons c cs =>
      simp only [List.nil_append, List.cons_append, List.cons.injEq] at h
      exact absurd h.1.symm (hC c (by simp))
  | cons a as ih =>
    intro C B D hA hC h
    cases C with
    | nil =>
      simp only [List.nil_append, List.cons_append, List.cons.injEq] at h
      exact absurd h.1 (hA a (by simp))
    | cons c cs =>
      simp only [List.cons_append, List.cons.injEq] at h
      obtain ⟨h1, h2⟩ := h
      obtain ⟨e1, e2⟩ := ih cs B D (fun x hx => hA x (by simp [hx]))
        (fun x hx => hC x (by simp [hx])) h2
      exact ⟨by rw [h1, e1], e2⟩

theorem render2_inj (m n m' n' : Nat)
    (h : toString m ++ "-" ++ toString n = toString m' ++ "-" ++ toString n') :
    m = m' ∧ n = n' := by
  have hd := congrArg String.data h
  rw [data_append, data_append, data_append, data_append,
    show ("-" : String).data = ['-'] from rfl,
    List.append_assoc, List.append_assoc, List.singleton_append,
    List.singleton_append] at hd
  obtain ⟨e1, e2⟩ := append_dash_inj _ _ _ _
    (fun a ha => dash_not_mem_toString m a ha)
    (fun a ha => dash_not_mem_toString m' a ha) hd
  have hm := congrArg undigits e1
  have hn := congrArg undigits e2
  rw [undigits_toString, undigits_toString] at hm hn
  exact ⟨hm, hn⟩


theorem takeWhile_append_cons (p : Char → Bool) :
    ∀ (A : List Char) (x : Char) (B : List Char),
      (∀ a ∈ A, p a = true) → p x = false → (A ++ x :: B).takeWhile p = A := by
  intro A
  induction A with
  | nil => intro x B _ hx; simp [List.takeWhile_cons, hx]
  | cons a as ih =>
    intro x B hA hx
    rw [List.cons_append, List.takeWhile_cons, hA a (by simp)]
    simp [ih x B (fun y hy => hA y (by simp [hy])) hx]

theorem dropWhile_append_cons (p : Char → Bool) :
    ∀ (A : List Char) (x : Char) (B : List Char),
      (∀ a ∈ A, p a = true) → p x = false → (A ++ x :: B).dropWhile p = x :: B := by
  intro A
  induction A with
  | nil => intro x B _ hx; simp [List.dropWhile_cons, hx]
  | cons a as ih =>
    intro x B hA hx
    rw [List.cons_append, List.dropWhile_cons, hA a (by simp)]
    simp [ih x B (fun y hy => hA y (by simp [hy])) hx]

theorem takeWhile_all (p : Char → Bool) :
    ∀ (A : List Char), (∀ a ∈ A, p a = true) → A.takeWhile p = A := by
  intro A
  induction A with
  | nil => intro _; rfl
  | cons a as ih =>
    intro hA
    rw [List.takeWhile_cons, hA a (by simp)]
    simp [ih (fun y hy => hA y (by simp [hy]))]

theorem ne_dash_bne (c : Char) (h : c ≠ '-') : (c != '-') = true := by
  simpa using h

theorem toString_no_dash_bne (n : Nat) :
    ∀ a ∈ (toString n).data, (a != '-') = true := fun a ha =>
  ne_dash_bne a (dash_not_mem_toString n a ha)

theorem undigits_cons_zero (l : List Char) : undigits ('0' :: l) = undigits l := by
  unfold undigits
  rw [List.foldl_cons, show (0 : Nat) * 10 + charDigitVal '0' = 0 from by decide]

theorem undigits_pad2 (m : Nat) : undigits (pad2 m).data = m := by
  unfold pad2
  by_cases h : m < 10
  · rw [if_pos h, data_append, show ("0" : String).data = ['0'] from rfl,
      List.singleton_append, undigits_cons_zero]
    exact undigits_toString m
  · rw [if_neg h]; exact undigits_toString m

theorem pad2_no_dash_bne (m : Nat) : ∀ c ∈ (pad2 m).data, (c != '-') = true := by
  intro c hc
  unfold pad2 at hc
  by_cases h : m < 10
  · rw [if_pos h, data_append, show ("0" : String).data = ['0'] from rfl,
      List.singleton_append] at hc
    rcases List.mem_cons.mp hc with h1 | h2
    · rw [h1]; decide
    · exact toString_no_dash_bne m c h2
  · rw [if_neg h] at hc
    exact toString_no_dash_bne m c hc

theorem monthDtOf_monthBucket (d : Date) :
    monthDtOf (monthBucket d) = (d.year, d.month) := by
  unfold monthDtOf monthBucket
  rw [data_append, data_append, show ("-" : String).data = ['-'] from rfl,
    List.append_assoc, List.singleton_append,
    takeWhile_append_cons _ _ _ _ (toString_no_dash_bne d.year) (by decide),
    dropWhile_append_cons _ _ _ _ (toString_no_dash_bne d.year) (by decide),
    List.drop_succ_cons, List.drop_zero,
    takeWhile_all _ _ (pad2_no_dash_bne d.month),
    undigits_toString, undigits_pad2]

theorem ayStartOf_academicYear (d : Date) :
    ayStartOf (academicYear d) = ayStart d := by
  unfold ayStartOf academicYear ayStart
  by_cases h : 9 ≤ d.month
  · rw [if_pos h, if_pos h, data_append, data_append,
      show ("-" : String).data = ['-'] from rfl,
      List.append_assoc, List.singleton_append,
      takeWhile_append_cons _ _ _ _ (toString_no_dash_bne d.year) (by decide),
      undigits_toString]
  · rw [if_neg h, if_neg h, data_append, data_append,
      show ("-" : String).data = ['-'] from rfl,
      List.append_assoc, List.singleton_append,
      takeWhile_append_cons _ _ _ _ (toString_no_dash_bne (d.year - 1)) (by decide),
      undigits_toString]

/-!
Filter-engine lemmas.
-/

theorem beq_string_refl_or (dist : String) (h : dist = "全部区域") :
    (dist == "全部区域") = true := by
  rw [h]; rfl

theorem beq_string_false (dist : String) (h : ¬dist = "全部区域") :
    (dist == "全部区域") = false := by
  simpa using h

theorem filteredDf_eq (df : List Row) (s e : Date) (dist : String) (schools : List String) :
    filteredDf df s e dist schools =
      df.filter (fun r => dateLE s r.date && dateLE r.date e
        && (dist == "全部区域" || r.district == dist)
        && (schools.isEmpty || schools.contains r.school)) := by
  unfold filteredDf schoolStep districtStep dateStep
  by_cases h1 : dist = "全部区域" <;> by_cases h2 : schools.isEmpty = true
  · rw [if_pos h2, if_neg (by simp [h1])]
    apply List.filter_congr
    intro r _
    rw [beq_string_refl_or dist h1, h2]
    simp
  · rw [if_neg h2, if_neg (by simp [h1]), List.filter_filter]
    apply List.filter_congr
    intro r _
    rw [beq_string_refl_or dist h1,
      show schools.isEmpty = false from by simpa using h2]
    cases dateLE s r.date <;> cases dateLE r.date e <;>
      cases schools.contains r.school <;> rfl
  · rw [if_pos h2, if_pos h1, List.filter_filter]
    apply List.filter_congr
    intro r _
    rw [beq_string_false dist h1, h2]
    cases dateLE s r.date <;> cases dateLE r.date e <;>
      cases r.district == dist <;> rfl
  · rw [if_neg h2, if_pos h1, List.filter_filter, List.filter_filter]
    apply List.filter_congr
    intro r _
    rw [beq_string_false dist h1,
      show schools.isEmpty = false from by simpa using h2]
    cases dateLE s r.date <;> cases dateLE r.date e <;>
      cases r.district == dist <;> cases schools.contains r.school <;> rfl

theorem filter_swap (l : List Row) (p q : Row → Bool) :
    (l.filter p).filter q = (l.filter q).filter p := by
  rw [List.filter_filter, List.filter_filter]
  apply List.filter_congr
  intro r _
  exact Bool.and_comm (q r) (p r)

theorem dateStep_districtStep_comm (s e : Date) (dist : String) (l : List Row) :
    dateStep s e (districtStep dist l) = districtStep dist (dateStep s e l) := by
  unfold dateStep districtStep
  by_cases h : dist = "全部区域"
  · rw [if_neg (by simp [h]), if_neg (by simp [h])]
  · rw [if_pos (by simpa using h), if_pos (by simpa using h), filter_swap]

theorem dateStep_schoolStep_comm (s e : Date) (schools : List String) (l : List Row) :
    dateStep s e (schoolStep schools l) = schoolStep schools (dateStep s e l) := by
  unfold dateStep schoolStep
  by_cases h : schools.isEmpty
  · rw [if_pos h, if_pos h]
  · rw [if_neg h, if_neg h, filter_swap]

theorem districtStep_schoolStep_comm (dist : String) (schools : List String) (l : List Row) :
    districtStep dist (schoolStep schools l) = schoolStep schools (districtStep dist l) := by
  unfold districtStep schoolStep
  split_ifs <;> first | rfl | exact filter_swap l _ _

/-!
Aggregation lemmas.
-/

theorem sumBy_perm (rows rows' : List Row) (hp : rows.Perm rows') (p : Row → Bool)
    (v : Row → Int) : sumBy rows p v = sumBy rows' p v :=
  List.Perm.sum_eq ((hp.filter p).map v)

theorem trendGroup_perm (keyf : Row → String) (rows rows' : List Row)
    (hp : rows.Perm rows') : trendGroup keyf rows = trendGroup keyf rows' := by
  unfold trendGroup
  have hkeys : List.insertionSort (α := String) (· ≤ ·) ((rows.map keyf).dedup)
      = List.insertionSort (α := String) (· ≤ ·) ((rows'.map keyf).dedup) := by
    exact @List.eq_of_perm_of_sorted String (· ≤ ·) _ _ _
      ((List.perm_insertionSort _ _).trans
        (((hp.map keyf).dedup).trans (List.perm_insertionSort _ _).symm))
      (List.sorted_insertionSort _ _) (List.sorted_insertionSort _ _)
  rw [hkeys]
  simp only [sumBy_perm rows rows' hp]

/-!
Claim theorems.
-/

/-- Claim C1: the derived academic year is "{year}-{year+1}" for months from
September on and "{year-1}-{year}" before September, and August 31 and
September 1 of the same calendar year always land in different academic years. -/
theorem academicYear_correct (y m dy : Nat) :
    (9 ≤ m → academicYear ⟨y, m, dy⟩ = toString y ++ "-" ++ toString (y + 1)) ∧
    (m < 9 → academicYear ⟨y, m, dy⟩ = toString (y - 1) ++ "-" ++ toString y) ∧
    academicYear ⟨y, 8, 31⟩ ≠ academicYear ⟨y, 9, 1⟩ := by
  refine ⟨fun h => ?_, fun h => ?_, fun hc => ?_⟩
  · unfold academicYear
    exact if_pos h
  · unfold academicYear
    exact if_neg (Nat.not_le.mpr h)
  · have hc2 : (if 9 ≤ (8 : Nat) then toString y ++ "-" ++ toString (y + 1)
        else toString (y - 1) ++ "-" ++ toString y)
      = (if 9 ≤ (9 : Nat) then toString y ++ "-" ++ toString (y + 1)
        else toString (y - 1) ++ "-" ++ toString y) := hc
    rw [if_neg (by decide), if_pos (by decide)] at hc2
    obtain ⟨e1, e2⟩ := render2_inj _ _ _ _ hc2
    omega

/-- Claim C2 is violated by the code: with the recommended schema, the
prefix-discovery branch matches the reserved columns 板块A and 板块B themselves
(Python's `c.startswith('板块A')` is true for `'板块A'`), so `ALL_ITEMS`
contains reserved field names; the numeric fallback branch, by contrast, does
exclude the reserved set. -/
theorem allItems_reserved_violation :
    allItems exSchema = ["板块A", "板块B"] ∧
    "板块A" ∈ allItems exSchema ∧ "板块B" ∈ allItems exSchema ∧
    "板块A" ∈ knownCols ∧ "板块B" ∈ knownCols ∧
    allItems exSchemaFallback = ["阅读量"] := by decide

/-- Claim C5: the global filter keeps exactly the rows inside the inclusive
date range that match the selected district (when one is set) and belong to
the selected school set (when non-empty); an empty school set imposes no
restriction, returning the date/district-filtered view unchanged. -/
theorem filteredDf_correct (df : List Row) (s e : Date) (dist : String)
    (schools : List String) :
    filteredDf df s e dist schools =
      df.filter (fun r => dateLE s r.date && dateLE r.date e
        && (dist == "全部区域" || r.district == dist)
        && (schools.isEmpty || schools.contains r.school)) ∧
    filteredDf df s e dist [] = districtStep dist (dateStep s e df) := by
  refine ⟨filteredDf_eq df s e dist schools, ?_⟩
  unfold filteredDf schoolStep
  exact if_pos rfl

/-- Claim C6: the three filter conditions of the global filter commute —
applying the date-range, district and school steps in any of the six orders
yields the implemented `filtered_df`. -/
theorem filter_order_irrelevant (df : List Row) (s e : Date) (dist : String)
    (schools : List String) :
    schoolStep schools (districtStep dist (dateStep s e df)) = filteredDf df s e dist schools ∧
    districtStep dist (schoolStep schools (dateStep s e df)) = filteredDf df s e dist schools ∧
    schoolStep schools (dateStep s e (districtStep dist df)) = filteredDf df s e dist schools ∧
    dateStep s e (schoolStep schools (districtStep dist df)) = filteredDf df s e dist schools ∧
    districtStep dist (dateStep s e (schoolStep schools df)) = filteredDf df s e dist schools ∧
    dateStep s e (districtStep dist (schoolStep schools df)) = filteredDf df s e dist schools := by
  unfold filteredDf
  refine ⟨rfl, ?_, ?_, ?_, ?_, ?_⟩
  · rw [districtStep_schoolStep_comm]
  · rw [dateStep_districtStep_comm]
  · rw [dateStep_schoolStep_comm, dateStep_districtStep_comm]
  · rw [dateStep_schoolStep_comm, districtStep_schoolStep_comm]
  · rw [districtStep_schoolStep_comm, dateStep_schoolStep_comm, dateStep_districtStep_comm]

/-- Claim C8: the single-school item breakdown contains exactly the item
columns whose total over the school's filtered rows is strictly positive,
each paired with that total; on the scenario with sums x ↦ 0, y ↦ 3, z ↦ -1
only y survives. -/
theorem itemSum_breakdown_correct (schoolDetail : List Row) (items : List String)
    (i : String) (v : Int) :
    ((i, v) ∈ itemSumTable schoolDetail items ↔
      i ∈ items ∧ v = itemTotal schoolDetail i ∧ 0 < v) ∧
    itemSumTable c8Rows ["x", "y", "z"] = [("y", 3)] := by
  constructor
  · unfold itemSumTable
    rw [List.mem_filter, List.mem_map]
    constructor
    · rintro ⟨⟨x, hx, he⟩, hpos⟩
      injection he with h1 h2
      subst h1
      subst h2
      exact ⟨hx, rfl, of_decide_eq_true hpos⟩
    · rintro ⟨hi, hv, hpos⟩
      exact ⟨⟨i, hi, by rw [hv]⟩, decide_eq_true hpos⟩
  · decide

/-- Claim C9: an empty tab-level selection (schools in tabs 2 and 3, teachers
in tab 4) short-circuits the query — nothing is filtered or aggregated and no
result is produced — whereas the global filter treats an empty school set as
no restriction. -/
theorem empty_tab_selection_no_result (f df2 : List Row) (s e : Date)
    (dist target tgtSchool : String) (gs : List String) :
    tab2Result f [] = (none, false) ∧
    tab3Result df2 s e dist gs [] target = (none, false) ∧
    tab4Result f tgtSchool [] = (none, false) ∧
    filteredDf df2 s e dist [] = districtStep dist (dateStep s e df2) := by
  refine ⟨rfl, rfl, ?_, ?_⟩
  · unfold tab4Result
    by_cases h : (f.filter (fun r => r.school == tgtSchool)).isEmpty = true
    · rw [if_pos h]
    · rw [if_neg h]
      exact if_pos rfl
  · unfold filteredDf schoolStep
    exact if_pos rfl

/-- Claim C10: no query mutates the loaded dataset — running every view's
filter and aggregation pass returns the cached dataset state unchanged, the
results being fresh values derived from it. -/
theorem queries_preserve_dataset (st : Dashboard) (s e : Date) (dist : String)
    (gs sel2 comp : List String) (target tgtSchool : String)
    (teachers items : List String) :
    (runDashboard st s e dist gs sel2 comp target tgtSchool teachers items).2 = st ∧
    (runDashboard st s e dist gs sel2 comp target tgtSchool teachers items).2.df = st.df :=
  ⟨rfl, rfl⟩

/-- Claim C3 is false on the code: the cross-entity ("跨区") comparison reads
its rows from `filtered_df`, which the sidebar's district selection has already
restricted.  With the same dataset, date range and chosen school, changing only
the global district flips the result from data to "no data". -/
theorem tab3_depends_on_global_district :
    tab3Result exDf exS exE "A区" [] ["S2"] "板块A" = (none, false) ∧
    tab3Result exDf exS exE "全部区域" [] ["S2"] "板块A"
      = (some [(("2024-03", "S2"), 7)], false) ∧
    tab3Result exDf exS exE "A区" [] ["S2"] "板块A"
      ≠ tab3Result exDf exS exE "全部区域" [] ["S2"] "板块A" :=
  ⟨by decide, by decide, by decide⟩

/-- Claim C3 (amended): the cross-entity comparison inherits the whole global
filter — its (month, school) sums are computed from the rows inside the date
range that also match the globally selected district (when set) and the global
school selection (when non-empty), intersected with the tab's (capped) chosen
school set. -/
theorem tab3_inherits_global_filter (df2 : List Row) (s e : Date)
    (dist target : String) (gs comp : List String) :
    tab3Result df2 s e dist gs comp target =
      (if comp.isEmpty then (none, false)
       else
         (let kept := df2.filter (fun r => dateLE s r.date && dateLE r.date e
             && (dist == "全部区域" || r.district == dist)
             && (gs.isEmpty || gs.contains r.school)
             && (if 20 < comp.length then comp.take 20 else comp).contains r.school)
          (if kept.isEmpty then none
           else some (aggMonthBy (fun r => r.school) (colVal target) kept),
           decide (20 < comp.length)))) := by
  have hk : (filteredDf df2 s e dist gs).filter
        (fun r => (if 20 < comp.length then comp.take 20 else comp).contains r.school)
      = df2.filter (fun r => dateLE s r.date && dateLE r.date e
          && (dist == "全部区域" || r.district == dist)
          && (gs.isEmpty || gs.contains r.school)
          && (if 20 < comp.length then comp.take 20 else comp).contains r.school) := by
    rw [filteredDf_eq, List.filter_filter]
    apply List.filter_congr
    intro r _
    exact Bool.and_comm _ _
  simp only [tab3Result]
  rw [hk]
  split_ifs <;> rfl

/-- Claim C4: the overview trend is chronologically ordered and insensitive to
the input row order — for any permutation of the filtered view the monthly and
academic-year trends are identical; the monthly trend is sorted by the real
calendar (year, month) parsed back from each "YYYY-MM" key, the academic-year
trend ascending by the integer first component of each "Y1-Y2" key; and those
parsed keys agree with the calendar fields the strings were rendered from. -/
theorem trend_chronological (rows rows' : List Row) (d : Date)
    (hp : rows.Perm rows') :
    trendDataMonth rows = trendDataMonth rows' ∧
    trendDataAY rows = trendDataAY rows' ∧
    (trendDataMonth rows).Pairwise trendEntryLE ∧
    (trendDataAY rows).Pairwise ayEntryLE ∧
    monthDtOf (monthBucket d) = (d.year, d.month) ∧
    ayStartOf (academicYear d) = ayStart d := by
  refine ⟨?_, ?_, ?_, ?_, monthDtOf_monthBucket d, ayStartOf_academicYear d⟩
  · unfold trendDataMonth
    rw [trendGroup_perm _ rows rows' hp]
  · unfold trendDataAY
    rw [trendGroup_perm _ rows rows' hp]
  · exact List.sorted_insertionSort trendEntryLE _
  · exact List.sorted_insertionSort ayEntryLE _

/-- Witness for the trend-ordering claim: the two-row example dataset and its
reversal, with the decode facts at August 31, 2024. -/
theorem trend_chronological_witness :
    trendDataMonth exDf = trendDataMonth exDfRev ∧
    trendDataAY exDf = trendDataAY exDfRev ∧
    (trendDataMonth exDf).Pairwise trendEntryLE ∧
    (trendDataAY exDf).Pairwise ayEntryLE ∧
    monthDtOf (monthBucket ⟨2024, 8, 31⟩) = (2024, 8) ∧
    ayStartOf (academicYear ⟨2024, 8, 31⟩) = ayStart ⟨2024, 8, 31⟩ :=
  trend_chronological exDf exDfRev ⟨2024, 8, 31⟩ (by decide)

theorem isEmpty_false_of_lt_length (sel : List String) (n : Nat)
    (h : n < sel.length) : sel.isEmpty = false := by
  cases sel with
  | nil => simp at h
  | cons a l => rfl

theorem tab2Result_capped (f : List Row) (sel : List String) (h : 10 < sel.length) :
    tab2Result f sel = ((tab2Result f (sel.take 10)).1, true) := by
  have ne1 : ¬ sel.isEmpty = true := by
    rw [isEmpty_false_of_lt_length sel 10 (by omega)]; simp
  have ne2 : ¬ (sel.take 10).isEmpty = true := by
    rw [isEmpty_false_of_lt_length (sel.take 10) 9 (by rw [List.length_take]; omega)]; simp
  have hnot : ¬ 10 < (sel.take 10).length := by rw [List.length_take]; omega
  simp only [tab2Result]
  rw [if_neg ne1, if_neg ne2, if_pos h, if_neg hnot, decide_eq_true h, decide_eq_false hnot]
  by_cases hc : (f.filter (fun r => (sel.take 10).contains r.school)).isEmpty = true
  · rw [if_pos hc, if_pos hc]
  · rw [if_neg hc, if_neg hc]

theorem tab3Result_capped (df2 : List Row) (s e : Date) (dist target : String)
    (gs sel : List String) (h : 20 < sel.length) :
    tab3Result df2 s e dist gs sel target
      = ((tab3Result df2 s e dist gs (sel.take 20) target).1, true) := by
  have ne1 : ¬ sel.isEmpty = true := by
    rw [isEmpty_false_of_lt_length sel 20 (by omega)]; simp
  have ne2 : ¬ (sel.take 20).isEmpty = true := by
    rw [isEmpty_false_of_lt_length (sel.take 20) 19 (by rw [List.length_take]; omega)]; simp
  have hnot : ¬ 20 < (sel.take 20).length := by rw [List.length_take]; omega
  simp only [tab3Result]
  rw [if_neg ne1, if_neg ne2, if_pos h, if_neg hnot, decide_eq_true h, decide_eq_false hnot]
  by_cases hc : ((filteredDf df2 s e dist gs).filter
      (fun r => (sel.take 20).contains r.school)).isEmpty = true
  · rw [if_pos hc, if_pos hc]
  · rw [if_neg hc, if_neg hc]

theorem tab4Result_capped (f : List Row) (tgt : String) (sel : List String)
    (h : 10 < sel.length)
    (hsd : ¬ (f.filter (fun r => r.school == tgt)).isEmpty = true) :
    tab4Result f tgt sel = ((tab4Result f tgt (sel.take 10)).1, true) := by
  have ne1 : ¬ sel.isEmpty = true := by
    rw [isEmpty_false_of_lt_length sel 10 (by omega)]; simp
  have ne2 : ¬ (sel.take 10).isEmpty = true := by
    rw [isEmpty_false_of_lt_length (sel.take 10) 9 (by rw [List.length_take]; omega)]; simp
  have hnot : ¬ 10 < (sel.take 10).length := by rw [List.length_take]; omega
  simp only [tab4Result]
  rw [if_neg hsd, if_neg hsd, if_neg ne1, if_neg ne2, if_pos h, if_neg hnot,
    decide_eq_true h, decide_eq_false hnot]

/-- Claim C7: every over-cap selection (more than 10 schools in tab 2, 20 in
tab 3, 10 teachers in tab 4) is silently truncated to the first N entries in
selection order — the query result equals the one for the truncated selection,
which has exactly N entries — and the cap warning fires instead of an error.
(The tab-4 teacher widget only exists when the chosen school has data, hence
that hypothesis.) -/
theorem selection_caps (f df2 : List Row) (s e : Date)
    (dist target tgtSchool : String) (gs sel2 sel3 sel4 : List String)
    (h2 : 10 < sel2.length) (h3 : 20 < sel3.length) (h4 : 10 < sel4.length)
    (hsd : ¬ (f.filter (fun r => r.school == tgtSchool)).isEmpty = true) :
    ((tab2Result f sel2).1 = (tab2Result f (sel2.take 10)).1 ∧
      (tab2Result f sel2).2 = true ∧ (sel2.take 10).length = 10) ∧
    ((tab3Result df2 s e dist gs sel3 target).1
        = (tab3Result df2 s e dist gs (sel3.take 20) target).1 ∧
      (tab3Result df2 s e dist gs sel3 target).2 = true ∧
      (sel3.take 20).length = 20) ∧
    ((tab4Result f tgtSchool sel4).1 = (tab4Result f tgtSchool (sel4.take 10)).1 ∧
      (tab4Result f tgtSchool sel4).2 = true ∧ (sel4.take 10).length = 10) := by
  have t2 := tab2Result_capped f sel2 h2
  have t3 := tab3Result_capped df2 s e dist target gs sel3 h3
  have t4 := tab4Result_capped f tgtSchool sel4 h4 hsd
  refine ⟨⟨by rw [t2], by rw [t2], by rw [List.length_take]; omega⟩,
    ⟨by rw [t3], by rw [t3], by rw [List.length_take]; omega⟩,
    ⟨by rw [t4], by rw [t4], by rw [List.length_take]; omega⟩⟩

/-- Witness for the selection-cap claim: 11 schools, 21 schools and 11 teachers
against the example data, with the school "S1" having rows. -/
theorem selection_caps_witness :
    ((tab2Result [exRow1] (List.replicate 11 "x")).1
        = (tab2Result [exRow1] ((List.replicate 11 "x").take 10)).1 ∧
      (tab2Result [exRow1] (List.replicate 11 "x")).2 = true ∧
      ((List.replicate 11 "x").take 10).length = 10) ∧
    ((tab3Result exDf exS exE "全部区域" [] (List.replicate 21 "x") "板块A").1
        = (tab3Result exDf exS exE "全部区域" [] ((List.replicate 21 "x").take 20) "板块A").1 ∧
      (tab3Result exDf exS exE "全部区域" [] (List.replicate 21 "x") "板块A").2 = true ∧
      ((List.replicate 21 "x").take 20).length = 20) ∧
    ((tab4Result [exRow1] "S1" (List.replicate 11 "x")).1
        = (tab4Result [exRow1] "S1" ((List.replicate 11 "x").take 10)).1 ∧
      (tab4Result [exRow1] "S1" (List.replicate 11 "x")).2 = true ∧
      ((List.replicate 11 "x").take 10).length = 10) :=
  selection_caps [exRow1] exDf exS exE "全部区域" "板块A" "S1" []
    (List.replicate 11 "x") (List.replicate 21 "x") (List.replicate 11 "x")
    (by decide) (by decide) (by decide) (by decide)

/-- Witness for the academic-year claim at September 1 / August 31, 2024. -/
theorem academicYear_correct_witness :
    (9 ≤ 9 → academicYear ⟨2024, 9, 1⟩ = toString 2024 ++ "-" ++ toString (2024 + 1)) ∧
    (9 < 9 → academicYear ⟨2024, 9, 1⟩ = toString (2024 - 1) ++ "-" ++ toString 2024) ∧
    academicYear ⟨2024, 8, 31⟩ ≠ academicYear ⟨2024, 9, 1⟩ :=
  academicYear_correct 2024 9 1
